import Mathlib

/-!
Verification of the x62-fancontrol program (src/x62-fancontrol.c).

The definitions below are a shallow embedding of the C source:
pure computations become Lean functions, the hardware-polling loops
become explicit recursion over an abstract status stream, and fatal
process termination (`die` / `die_status`) is represented by returning
the exit status the process would terminate with.
-/

set_option maxRecDepth 4000

/-- `struct temp_level` (x62-fancontrol.c lines 159-163): one rung of the
fan-speed ladder.  The C fields are `unsigned char`; we model them as `Nat`
(their byte values). -/
structure temp_level where
  enter : Nat
  leave : Nat
  fan_speed : Nat
deriving DecidableEq, Repr

/-- Dummy level used as the `List.getD` default; the theorems establish that
all array accesses performed by the code are in bounds, so this default is
never consulted on the executions the C program performs. -/
def dummy_level : temp_level := ⟨0, 0, 0⟩

/-- `default_levels` (lines 183-190): the built-in ladder. -/
def default_levels : List temp_level :=
  [ ⟨40, 0, 100⟩,
    ⟨55, 40, 99⟩,
    ⟨65, 45, 60⟩,
    ⟨70, 55, 20⟩,
    ⟨85, 60, 1⟩ ]

/-- `num_default_levels` (line 191). -/
def num_default_levels : Nat := 5

/-- The level-update decision performed by one iteration of `fan_manager`
(lines 198-214), translated condition-for-condition from the C:

    if (temp < levels[level].leave && level > 0) level--;
    else if (level < num_levels-1 && temp > levels[level+1].enter) level++;
    else /* stay */ ;
-/
def fan_decide (levels : List temp_level) (num_levels level temp : Nat) : Nat :=
  if temp < (levels.getD level dummy_level).leave ∧ level > 0 then
    level - 1
  else if level < num_levels - 1 ∧ temp > (levels.getD (level + 1) dummy_level).enter then
    level + 1
  else
    level

/-- The sequence of post-decision level indices produced by running the
`fan_manager` loop once per temperature sample, starting from `level`. -/
def level_seq (levels : List temp_level) (num_levels level : Nat) :
    List Nat → List Nat
  | [] => []
  | t :: ts =>
    let l2 := fan_decide levels num_levels level t
    l2 :: level_seq levels num_levels l2 ts

/-- The level indices held by `fan_manager`, starting value included:
`level` itself followed by the post-decision level of every tick. -/
def level_trace (levels : List temp_level) (num_levels level : Nat) :
    List Nat → List Nat
  | [] => [level]
  | t :: ts =>
    level :: level_trace levels num_levels (fan_decide levels num_levels level t) ts

/-- Modelled from the spec: the decision rule as §4.4 words it, rule by rule
in the stated order — (1) if `current_level_index > 0` and
`sampled_temperature < ladder[current_level_index].leave`, move down one;
(2) else if `current_level_index < N-1` and
`sampled_temperature > ladder[current_level_index + 1].enter`, move up one;
(3) else stay.  Used only to compare against `fan_decide`, which is
translated from the source. -/
def fan_decide_spec (levels : List temp_level) (num_levels level temp : Nat) : Nat :=
  if level > 0 ∧ temp < (levels.getD level dummy_level).leave then
    level - 1
  else if level < num_levels - 1 ∧ temp > (levels.getD (level + 1) dummy_level).enter then
    level + 1
  else
    level

/-- The ladder indices `fan_manager` reads from the `levels` array during one
loop iteration: `levels[level].leave` for the down-guard (read
unconditionally); `levels[level+1].enter` for the short-circuited up-guard,
and again for the stay-branch upper-bound print, both only reached when the
down-rule did not fire and `level < num_levels-1`; `levels[level].leave`
again for the stay-branch lower-bound print; and `levels[level].fan_speed`
at the post-decision level for the logging and the unconditional
`set_fan_speed` call. -/
def tick_indices (levels : List temp_level) (num_levels level temp : Nat) : List Nat :=
  let down := temp < (levels.getD level dummy_level).leave ∧ level > 0
  [level]
    ++ (if ¬down ∧ level < num_levels - 1 then [level + 1] else [])
    ++ [fan_decide levels num_levels level temp]

/-- C1 counterexample: on the default ladder, starting at level 0, the
temperature samples [30, 42, 60, 72, 50, 44, 39] produce the level sequence
[0, 0, 1, 2, 2, 1, 0], which differs from the claimed [0, 1, 2, 3, 2, 1, 0]
(at level 0 the up-rule compares the sample against `levels[1].enter = 55`,
so 42 does not climb). -/
theorem c1_default_ladder_sequence_counterexample :
    level_seq default_levels num_default_levels 0 [30, 42, 60, 72, 50, 44, 39]
      = [0, 0, 1, 2, 2, 1, 0] ∧
    ([0, 0, 1, 2, 2, 1, 0] : List Nat) ≠ [0, 1, 2, 3, 2, 1, 0] := by
  constructor
  · rfl
  · decide

/-- C1 (amended): with the default ladder, starting at level 0, the sample
sequence [30, 42, 60, 72, 50, 44, 39] produces the level sequence
[0, 0, 1, 2, 2, 1, 0]. -/
theorem c1_default_ladder_sequence :
    level_seq default_levels num_default_levels 0 [30, 42, 60, 72, 50, 44, 39]
      = [0, 0, 1, 2, 2, 1, 0] := by
  rfl

/-- C2: the code's decision (translated from the source) coincides with the
spec's rule text, rules evaluated in the spec's stated order: first the
down-rule, else the up-rule, else stay. -/
theorem c2_rule_order_matches_spec (levels : List temp_level)
    (num_levels level temp : Nat) :
    fan_decide levels num_levels level temp
      = fan_decide_spec levels num_levels level temp := by
  unfold fan_decide fan_decide_spec
  by_cases h1 : temp < (levels.getD level dummy_level).leave ∧ level > 0
  · have h1' : level > 0 ∧ temp < (levels.getD level dummy_level).leave :=
      ⟨h1.2, h1.1⟩
    rw [if_pos h1, if_pos h1']
  · have h1' : ¬(level > 0 ∧ temp < (levels.getD level dummy_level).leave) :=
      fun h => h1 ⟨h.2, h.1⟩
    rw [if_neg h1, if_neg h1']

/-- C3: one application of the decision function moves the level index by at
most one: the result is `level - 1`, `level`, or `level + 1`. -/
theorem c3_single_step (levels : List temp_level) (num_levels level temp : Nat) :
    fan_decide levels num_levels level temp = level - 1 ∨
    fan_decide levels num_levels level temp = level ∨
    fan_decide levels num_levels level temp = level + 1 := by
  unfold fan_decide
  split_ifs <;> simp

/-- C4: inside the overlap band — `ladder[i].leave ≤ t ≤ ladder[i+1].enter`,
for a level `i` that has a next level — the decision function is a fixed
point; in particular `t` equal to either boundary causes no transition,
since the guards use strict comparisons. -/
theorem c4_overlap_band_fixed_point (levels : List temp_level) (i t : Nat)
    (_hnext : i + 1 < levels.length)
    (hlo : (levels.getD i dummy_level).leave ≤ t)
    (hhi : t ≤ (levels.getD (i + 1) dummy_level).enter) :
    fan_decide levels levels.length i t = i := by
  have h1 : ¬(t < (levels.getD i dummy_level).leave ∧ i > 0) := by omega
  have h2 : ¬(i < levels.length - 1 ∧
      t > (levels.getD (i + 1) dummy_level).enter) := by omega
  unfold fan_decide
  rw [if_neg h1, if_neg h2]

/-- C4 witness: on the default ladder at level 1 with t = 50 (inside the band
[leave 1, enter 2] = [40, 65]) the decision stays at 1. -/
theorem c4_overlap_band_fixed_point_witness :
    fan_decide default_levels default_levels.length 1 50 = 1 :=
  c4_overlap_band_fixed_point default_levels 1 50 (by decide) (by decide) (by decide)

/-- Helper: the decision function maps an in-range level to an in-range
level (down is guarded by `level > 0`, up by `level < num_levels - 1`). -/
theorem fan_decide_lt (levels : List temp_level) (num_levels level temp : Nat)
    (h : level < num_levels) :
    fan_decide levels num_levels level temp < num_levels := by
  unfold fan_decide
  split_ifs <;> omega

/-- Helper: every level held by the manager loop, the starting level
included, stays below `num_levels`. -/
theorem level_trace_bounds (levels : List temp_level) (num_levels : Nat)
    (temps : List Nat) :
    ∀ level, level < num_levels →
      ∀ l ∈ level_trace levels num_levels level temps, l < num_levels := by
  induction temps with
  | nil =>
    intro level h l hl
    simp only [level_trace, List.mem_singleton] at hl
    exact hl ▸ h
  | cons t ts ih =>
    intro level h l hl
    simp only [level_trace, List.mem_cons] at hl
    rcases hl with rfl | hl
    · exact h
    · exact ih _ (fan_decide_lt levels num_levels level t h) l hl

/-- C5: for a non-empty ladder, starting at level 0, every level the poll
loop ever holds lies in `0..N-1` (downward moves are guarded at level 0,
upward moves at level N-1), and every ladder index the loop body reads is
in range, so the code never indexes the ladder out of bounds. -/
theorem c5_levels_stay_in_range (levels : List temp_level) (temps : List Nat)
    (hne : 0 < levels.length) :
    (∀ l ∈ level_trace levels levels.length 0 temps, l < levels.length) ∧
    (∀ level temp, level < levels.length →
      ∀ j ∈ tick_indices levels levels.length level temp, j < levels.length) := by
  constructor
  · exact level_trace_bounds levels levels.length temps 0 hne
  · intro level temp hlevel j hj
    have hd := fan_decide_lt levels levels.length level temp hlevel
    by_cases hc : ¬(temp < (levels.getD level dummy_level).leave ∧ level > 0) ∧
        level < levels.length - 1
    · simp only [tick_indices, if_pos hc, List.cons_append, List.nil_append,
        List.mem_cons, List.not_mem_nil, or_false] at hj
      rcases hj with rfl | rfl | rfl
      · exact hlevel
      · omega
      · exact hd
    · simp only [tick_indices, if_neg hc, List.cons_append, List.nil_append,
        List.mem_cons, List.not_mem_nil, or_false] at hj
      rcases hj with rfl | rfl
      · exact hlevel
      · exact hd

/-- C5 witness: running [30, 60, 72] from level 0 visits level 2, which is
inside the default ladder's bounds. -/
theorem c5_levels_stay_in_range_witness : (2 : Nat) < default_levels.length :=
  (c5_levels_stay_in_range default_levels [30, 60, 72] (by decide)).1 2 (by decide)

/-- Outcome of one handshake wait: how many status-port reads it performed,
how many 1-ms `usleep` calls it made, and whether it gave up. -/
structure wait_result where
  reads : Nat
  sleeps : Nat
  timeout : Bool
deriving DecidableEq, Repr

/-- The retry loop shared by `wait_0x6C_second_bit_unset` (lines 83-94) and
`wait_0x6C_first_bit_set` (lines 96-107):

    int counter = 0;
    int set = <status read>;            // read number 0, before the loop
    while (counter <= 1000 && set) {    // admits counter = 0..1000: 1001 iterations
      counter++;
      usleep(1000); // 1ms
      set = <status read>;              // read number `counter`
    }

`waiting k` abstracts the k-th status-port read: `true` while the port still
shows the undesired bit value.  `fuel` is the number of iterations the
`counter <= 1000` guard still admits, `reads`/`sleeps` count the work done so
far, and `w` is the latest read.  Each iteration sleeps 1 ms and reads once
more. -/
def wait_loop (waiting : Nat → Bool) : Nat → Nat → Nat → Bool → wait_result
  | 0, reads, sleeps, w => ⟨reads, sleeps, w⟩
  | fuel + 1, reads, sleeps, w =>
    if w then wait_loop waiting fuel (reads + 1) (sleeps + 1) (waiting reads)
    else ⟨reads, sleeps, w⟩

/-- `wait_0x6C_second_bit_unset` (lines 83-94): one initial status read, then
the bounded retry loop; if the bit is still set afterwards the code calls
`die_status(2, ...)`, modelled as the exit status `some 2`; `none` means the
wait succeeded and the function returned. -/
def wait_0x6C_second_bit_unset (waiting : Nat → Bool) : wait_result × Option Nat :=
  let r := wait_loop waiting 1001 1 0 (waiting 0)
  (r, if r.timeout then some 2 else none)

/-- `wait_0x6C_first_bit_set` (lines 96-107): identical loop structure, the
watched condition being the first bit still unset; timeout also dies with
exit status 2. -/
def wait_0x6C_first_bit_set (waiting : Nat → Bool) : wait_result × Option Nat :=
  let r := wait_loop waiting 1001 1 0 (waiting 0)
  (r, if r.timeout then some 2 else none)

/-- Helper: while the status never reaches the desired value, the loop runs
its fuel out, adding one read and one sleep per iteration. -/
theorem wait_loop_all_true (waiting : Nat → Bool) (h : ∀ k, waiting k = true) :
    ∀ fuel reads sleeps, wait_loop waiting fuel reads sleeps true
      = ⟨reads + fuel, sleeps + fuel, true⟩ := by
  intro fuel
  induction fuel with
  | zero => intro reads sleeps; rfl
  | succ n ih =>
    intro reads sleeps
    have hstep : wait_loop waiting (n + 1) reads sleeps true
        = wait_loop waiting n (reads + 1) (sleeps + 1) (waiting reads) := by
      simp [wait_loop]
    rw [hstep, h reads, ih]
    congr 1 <;> omega

/-- C6 counterexample: a wait whose watched bit never reaches the desired
value performs 1002 status reads (1001 of them after a 1-ms sleep), not the
claimed 1000 polling attempts — the `counter <= 1000` guard admits 1001 loop
iterations on top of the initial read — and then dies with status 2. -/
theorem c6_timeout_attempts_counterexample :
    wait_0x6C_second_bit_unset (fun _ => true) = (⟨1002, 1001, true⟩, some 2) ∧
    (1002 : Nat) ≠ 1000 ∧ (1001 : Nat) ≠ 1000 := by
  refine ⟨?_, by decide, by decide⟩
  simp [wait_0x6C_second_bit_unset, wait_loop_all_true (fun _ => true) (fun _ => rfl)]

/-- C6 (amended): a handshake wait whose watched status bit never reaches the
desired value performs exactly 1002 status-port reads — the initial read plus
1001 retries, each after a 1-ms sleep — and then fails with the
handshake-timeout exit status 2, making no further attempts. -/
theorem c6_timeout_after_exhaustion (waiting : Nat → Bool)
    (h : ∀ k, waiting k = true) :
    wait_0x6C_second_bit_unset waiting = (⟨1002, 1001, true⟩, some 2) ∧
    wait_0x6C_first_bit_set waiting = (⟨1002, 1001, true⟩, some 2) := by
  constructor <;>
    simp [wait_0x6C_second_bit_unset, wait_0x6C_first_bit_set, h 0,
      wait_loop_all_true waiting h]

/-- C6 witness: the constantly-busy status stream times out as stated. -/
theorem c6_timeout_after_exhaustion_witness :
    wait_0x6C_first_bit_set (fun _ => true) = (⟨1002, 1001, true⟩, some 2) :=
  (c6_timeout_after_exhaustion (fun _ => true) (fun _ => rfl)).2

/-- One observable EC interaction of the manager loop. -/
inductive ec_event
  | read_temp (t : Nat)
  | fan_cmd (v : Nat)
deriving DecidableEq, Repr

/-- The EC interactions `fan_manager` (lines 193-220) performs, one pair per
tick: read the temperature, update the level by the decision rule, then —
unconditionally, level changed or not — call
`set_fan_speed(levels[level].fan_speed)` at the post-decision level. -/
def fan_manager_events (levels : List temp_level) (num_levels level : Nat) :
    List Nat → List ec_event
  | [] => []
  | t :: ts =>
    let l2 := fan_decide levels num_levels level t
    ec_event.read_temp t
      :: ec_event.fan_cmd ((levels.getD l2 dummy_level).fan_speed)
      :: fan_manager_events levels num_levels l2 ts

/-- The fan-speed values sent to the EC, in order. -/
def sent_speeds (events : List ec_event) : List Nat :=
  events.filterMap fun e =>
    match e with
    | ec_event.fan_cmd v => some v
    | _ => none

/-- Helper: the decision sequence has one entry per temperature sample. -/
theorem level_seq_length (levels : List temp_level) (num_levels : Nat) :
    ∀ temps level, (level_seq levels num_levels level temps).length = temps.length := by
  intro temps
  induction temps with
  | nil => intro level; rfl
  | cons t ts ih => intro level; simp [level_seq, ih]

/-- Helper: the speeds sent are exactly the per-tick levels mapped through the
ladder's `fan_speed` column. -/
theorem sent_speeds_map (levels : List temp_level) (num_levels : Nat) :
    ∀ temps level, sent_speeds (fan_manager_events levels num_levels level temps)
      = (level_seq levels num_levels level temps).map
          (fun l => (levels.getD l dummy_level).fan_speed) := by
  intro temps
  induction temps with
  | nil => intro level; rfl
  | cons t ts ih =>
    intro level
    simp [fan_manager_events, level_seq, sent_speeds, List.filterMap_cons] at ih ⊢
    exact ih _

/-- C9: on every tick the manager sends exactly one fan-speed command, the
current (post-decision) level's `fan_speed` — one command per temperature
sample, also on ticks where the level did not change; consequently two
consecutive ticks at the same level send the same commanded speed twice. -/
theorem c9_speed_sent_every_tick (levels : List temp_level)
    (num_levels level : Nat) (temps : List Nat) :
    sent_speeds (fan_manager_events levels num_levels level temps)
      = (level_seq levels num_levels level temps).map
          (fun l => (levels.getD l dummy_level).fan_speed) ∧
    (sent_speeds (fan_manager_events levels num_levels level temps)).length
      = temps.length ∧
    ∀ i : Nat,
      (level_seq levels num_levels level temps)[i]?
          = (level_seq levels num_levels level temps)[i + 1]? →
      (sent_speeds (fan_manager_events levels num_levels level temps))[i]?
          = (sent_speeds (fan_manager_events levels num_levels level temps))[i + 1]? := by
  refine ⟨sent_speeds_map levels num_levels temps level, ?_, ?_⟩
  · rw [sent_speeds_map levels num_levels temps level, List.length_map,
      level_seq_length]
  · intro i h
    rw [sent_speeds_map levels num_levels temps level]
    simp only [List.getElem?_map, h]

/-- C9 witness: at level 2 with two samples inside level 2's band, both ticks
send speed 60. -/
theorem c9_speed_sent_every_tick_witness :
    (sent_speeds (fan_manager_events default_levels 5 2 [50, 50]))[0]?
      = (sent_speeds (fan_manager_events default_levels 5 2 [50, 50]))[1]? :=
  (c9_speed_sent_every_tick default_levels 5 2 [50, 50]).2.2 0 (by decide)

/-- C `isspace` in the default locale, as `strtol` skips it. -/
def c_isspace (c : Char) : Bool :=
  c == ' ' || c == '\t' || c == '\n' || c == '\x0b' || c == '\x0c' || c == '\r'

/-- Leading-whitespace skipping performed by `strtol`. -/
def skip_spaces : List Char → List Char
  | [] => []
  | c :: rest => if c_isspace c then skip_spaces rest else c :: rest

/-- Decimal digit value of a character, `none` for a non-digit. -/
def digit_val (c : Char) : Option Nat :=
  if '0' ≤ c ∧ c ≤ '9' then some (c.toNat - '0'.toNat) else none

/-- Accumulate the longest leading run of decimal digits. -/
def read_digits : List Char → Nat → Nat
  | [], acc => acc
  | c :: rest, acc =>
    match digit_val c with
    | some d => read_digits rest (acc * 10 + d)
    | none => acc

/-- `LONG_MAX` on the LP64 targets this program compiles for. -/
def long_max : Int := 2 ^ 63 - 1

/-- `LONG_MIN` on the LP64 targets this program compiles for. -/
def long_min : Int := -(2 ^ 63)

/-- Model of C `strtol(arg, NULL, 10)` as `main` uses it (line 251): skip
leading whitespace, accept one optional sign, then the longest run of
decimal digits — possibly empty, so non-numeric input parses as 0 with no
error indication — with the result clamped to the `long` range. -/
def strtol10 (s : String) : Int :=
  let cs := skip_spaces s.data
  match cs with
  | '-' :: rest =>
    let v : Int := -(read_digits rest 0 : Int)
    if v < long_min then long_min else v
  | '+' :: rest =>
    let v : Int := (read_digits rest 0 : Int)
    if v > long_max then long_max else v
  | _ =>
    let v : Int := (read_digits cs 0 : Int)
    if v > long_max then long_max else v

/-- The `set-fan-speed <arg>` command body (lines 249-259), after device
setup: parse `arg` with `strtol`, `die` (exit status 1) when the parsed
long lies outside [0, 255], otherwise call
`set_fan_speed((unsigned char)value)`.  `Except.error c` models the fatal
exit with status `c`; `Except.ok v` models the `set_fan_speed(v)` call. -/
def set_fan_speed_cmd (arg : String) : Except Nat Nat :=
  let v := strtol10 arg
  if v < 0 ∨ v > 255 then Except.error 1
  else Except.ok v.toNat

/-- C7 counterexample: the non-numeric argument "abc" is not rejected —
`strtol` parses it as 0, which passes the range check, so the command calls
`set_fan_speed(0)` instead of terminating fatally with exit code 1. -/
theorem c7_nonnumeric_argument_counterexample :
    set_fan_speed_cmd "abc" = Except.ok 0 ∧
    set_fan_speed_cmd "abc" ≠ Except.error 1 := by
  constructor
  · rfl
  · intro h
    exact Except.noConfusion
      ((rfl : set_fan_speed_cmd "abc" = Except.ok 0).symm.trans h)

/-- C7 (amended): the command validates only the `strtol`-parsed value of its
argument (non-numeric text parses as 0): when the parsed long is outside
[0, 255] the process dies with exit status 1 without calling
`set_fan_speed`, and otherwise `set_fan_speed` is called with the parsed
value. -/
theorem c7_range_check_on_parsed_value (arg : String) :
    (strtol10 arg < 0 ∨ strtol10 arg > 255 →
      set_fan_speed_cmd arg = Except.error 1) ∧
    (0 ≤ strtol10 arg ∧ strtol10 arg ≤ 255 →
      set_fan_speed_cmd arg = Except.ok (strtol10 arg).toNat) := by
  constructor
  · intro h
    simp only [set_fan_speed_cmd, if_pos h]
  · intro h
    have hno : ¬(strtol10 arg < 0 ∨ strtol10 arg > 255) := by omega
    simp only [set_fan_speed_cmd, if_neg hno]

/-- C7 witness: "300" is rejected with status 1; "42" reaches
`set_fan_speed`. -/
theorem c7_range_check_on_parsed_value_witness :
    set_fan_speed_cmd "300" = Except.error 1 ∧
    set_fan_speed_cmd "42" = Except.ok (strtol10 "42").toNat :=
  ⟨(c7_range_check_on_parsed_value "300").1 (by decide),
   (c7_range_check_on_parsed_value "42").2 (by decide)⟩

/-- `get_perm` (lines 33-38): a nonzero `ioperm` result makes the code call
`die`, which exits with status 1 (`some 1`); `none` models success. -/
def get_perm (err : Int) : Option Nat :=
  if err ≠ 0 then some 1 else none

/-- The device-matching loop of `initialize_pci` (lines 56-73), over the
enumerated `(vendor_id, device_id)` pairs: a second device matching
`8086:9cc3` dies at once ("Matched multiple devices!", status 1 via `die`);
if the scan ends with no match the code dies with "Could not match any
device!" (status 1).  `Except.ok` carries the matched device. -/
def match_pci_device : List (Nat × Nat) → Option (Nat × Nat) → Except Nat (Nat × Nat)
  | [], found =>
    match found with
    | some d => Except.ok d
    | none => Except.error 1
  | d :: rest, found =>
    if d.1 = 0x8086 ∧ d.2 = 0x9cc3 then
      match found with
      | some _ => Except.error 1
      | none => match_pci_device rest (some d)
    else
      match_pci_device rest found

/-- C8: an exit status of 2 arises exactly from the handshake-timeout paths —
both wait loops die with status 2 on exhaustion — while every other fatal
error modelled from the source (permission failure, zero or multiple device
matches, out-of-range set-fan-speed argument) dies with status 1. -/
theorem c8_exit_status_partition :
    (∀ waiting c, (wait_0x6C_second_bit_unset waiting).2 = some c → c = 2) ∧
    (∀ waiting c, (wait_0x6C_first_bit_set waiting).2 = some c → c = 2) ∧
    (∀ err c, get_perm err = some c → c = 1) ∧
    (∀ devs found c, match_pci_device devs found = Except.error c → c = 1) ∧
    (∀ arg c, set_fan_speed_cmd arg = Except.error c → c = 1) := by
  refine ⟨?_, ?_, ?_, ?_, ?_⟩
  · intro waiting c h
    simp only [wait_0x6C_second_bit_unset] at h
    split at h
    · exact (Option.some.inj h).symm
    · simp at h
  · intro waiting c h
    simp only [wait_0x6C_first_bit_set] at h
    split at h
    · exact (Option.some.inj h).symm
    · simp at h
  · intro err c h
    simp only [get_perm] at h
    split at h
    · exact (Option.some.inj h).symm
    · simp at h
  · intro devs
    induction devs with
    | nil =>
      intro found c h
      cases found with
      | some d => simp [match_pci_device] at h
      | none =>
        simp only [match_pci_device] at h
        simp only [Except.error.injEq] at h
        exact h.symm
    | cons d rest ih =>
      intro found c h
      by_cases hm : d.1 = 0x8086 ∧ d.2 = 0x9cc3
      · cases found with
        | some d0 =>
          simp only [match_pci_device, if_pos hm, Except.error.injEq] at h
          exact h.symm
        | none =>
          simp only [match_pci_device, if_pos hm] at h
          exact ih (some d) c h
      · simp only [match_pci_device, if_neg hm] at h
        exact ih found c h
  · intro arg c h
    simp only [set_fan_speed_cmd] at h
    split at h
    · exact (Except.error.inj h).symm
    · simp at h

/-- C8 witness: a never-clearing handshake wait yields status 2; a failed
ioperm yields status 1. -/
theorem c8_exit_status_partition_witness : (2 : Nat) = 2 ∧ (1 : Nat) = 1 :=
  ⟨c8_exit_status_partition.1 (fun _ => true) 2
      (by simp [wait_0x6C_second_bit_unset,
        wait_loop_all_true (fun _ => true) (fun _ => rfl)]),
   c8_exit_status_partition.2.2.1 (-1) 1 (by decide)⟩

/-- The possible dispatch outcomes of `main` (lines 243-267). -/
inductive main_action
  | show_temp
  | set_speed (arg : String)
  | run_manager
  | show_usage
deriving DecidableEq, Repr

/-- The argument dispatch of `main` (lines 243-267); `argv` is the full
argument vector, program name included, so `argc = argv.length`:

    if (argc == 2 && !strcmp(argv[1], "temp")) ...
    else if (argc == 3 && !strcmp(argv[1], "set-fan-speed")) ...
    else if (argc == 2 && !strcmp(argv[1], "manager")) ...
    else usage();
-/
def main_dispatch (argv : List String) : main_action :=
  if argv.length = 2 ∧ argv.getD 1 "" = "temp" then main_action.show_temp
  else if argv.length = 3 ∧ argv.getD 1 "" = "set-fan-speed" then
    main_action.set_speed (argv.getD 2 "")
  else if argv.length = 2 ∧ argv.getD 1 "" = "manager" then main_action.run_manager
  else main_action.show_usage

/-- `usage` (lines 225-241) prints the usage text and calls `exit(0)`. -/
def usage_exit_status : Nat := 0

/-- C10: every invocation matching none of the three recognized forms —
no arguments, an unknown subcommand, or a wrong argument count — falls
through to `usage`, which prints the help text and exits with status 0,
not a nonzero error code. -/
theorem c10_unrecognized_args_usage_exit_zero (argv : List String)
    (h1 : ¬(argv.length = 2 ∧ argv.getD 1 "" = "temp"))
    (h2 : ¬(argv.length = 3 ∧ argv.getD 1 "" = "set-fan-speed"))
    (h3 : ¬(argv.length = 2 ∧ argv.getD 1 "" = "manager")) :
    main_dispatch argv = main_action.show_usage ∧ usage_exit_status = 0 := by
  refine ⟨?_, rfl⟩
  simp only [main_dispatch, if_neg h1, if_neg h2, if_neg h3]

/-- C10 witness: invoking the program with no arguments prints usage and
exits 0. -/
theorem c10_unrecognized_args_usage_exit_zero_witness :
    main_dispatch ["x62-fancontrol"] = main_action.show_usage ∧
    usage_exit_status = 0 :=
  c10_unrecognized_args_usage_exit_zero ["x62-fancontrol"]
    (by decide) (by decide) (by decide)
